import Mathlib

/-
Shallow embedding of the e-commerce CRUD backend (src/app.py).

The store (MySQL via SQLAlchemy) is modelled as explicit state: three
entity tables plus the order_product association table.  Each Flask
route becomes a function from a store (and parsed request body) to an
`Except RouteErr` result; the spec's error taxonomy (ValidationError /
NotFoundError / ConflictError / StoreError) is a mapping `RouteErr.kind`
from the concrete responses the code produces.  Prices (Python floats)
are modelled as integers: the routes perform no arithmetic on prices,
only pass-through and sign-irrelevant storage, so only the presence or
absence of a sign check matters.  Timestamps are opaque integers.
-/

namespace EComm

/-- Decidable equality of results, so that concrete runs of the model
can be checked by evaluation. -/
instance {ε α : Type} [DecidableEq ε] [DecidableEq α] : DecidableEq (Except ε α) := fun x y =>
  match x, y with
  | Except.ok a, Except.ok b =>
      if h : a = b then isTrue (by rw [h]) else isFalse (fun he => by cases he; exact h rfl)
  | Except.error a, Except.error b =>
      if h : a = b then isTrue (by rw [h]) else isFalse (fun he => by cases he; exact h rfl)
  | Except.ok _, Except.error _ => isFalse (fun he => by cases he)
  | Except.error _, Except.ok _ => isFalse (fun he => by cases he)

/-- A JSON scalar in a request body: the routes only consume numbers
and strings. -/
inductive Val
| vi (n : Int)
| vs (t : String)
deriving DecidableEq, Repr

/-- A parsed JSON object (request.json): field name to scalar. -/
abbrev Input := List (String × Val)

/-- Row of the users table (model `User`, app.py lines 40-47). -/
structure User where
  id : Int
  name : String
  address : String
  email : String
deriving DecidableEq, Repr

/-- Row of the orders table (model `Order`, app.py lines 50-57);
`order_date` has server_default now(). -/
structure Order where
  id : Int
  order_date : Int
  user_id : Int
deriving DecidableEq, Repr

/-- Row of the products table (model `Product`, app.py lines 60-66). -/
structure Product where
  id : Int
  product_name : String
  price : Int
deriving DecidableEq, Repr

/-- The relational store: the three tables, the order_product
association table (composite key (order_id, product_id)), and the
auto-increment counters. -/
structure Store where
  users : List User
  orders : List Order
  products : List Product
  order_product : List (Int × Int)
  nextUserId : Int
  nextOrderId : Int
  nextProductId : Int
deriving DecidableEq, Repr

/-- A fresh database (db.create_all on an empty schema). -/
def emptyStore : Store := ⟨[], [], [], [], 1, 1, 1⟩

-- ======================= Schemas =======================

/-- Errors a marshmallow schema load reports: field name and message. -/
abbrev SchemaErrs := List (String × String)

/-- Marshmallow 3 default `unknown = RAISE`: every input key outside the
schema's declared loadable fields gets an Unknown field error. -/
def unknownErrs (j : Input) (allowed : List String) : SchemaErrs :=
  j.filterMap (fun kv => if kv.1 ∈ allowed then none else some (kv.1, "Unknown field."))

/-- Errors for a required String field (nullable=False column). -/
def strErrs (j : Input) (k : String) : SchemaErrs :=
  match j.lookup k with
  | none => [(k, "Missing data for required field.")]
  | some (Val.vs _) => []
  | some (Val.vi _) => [(k, "Not a valid string.")]

/-- Errors for a required numeric field (the Float column `price`). -/
def numErrs (j : Input) (k : String) : SchemaErrs :=
  match j.lookup k with
  | none => [(k, "Missing data for required field.")]
  | some (Val.vi _) => []
  | some (Val.vs _) => [(k, "Not a valid number.")]

/-- Errors for a required Integer field (OrderSchema.user_id). -/
def intErrs (j : Input) (k : String) : SchemaErrs :=
  match j.lookup k with
  | none => [(k, "Missing data for required field.")]
  | some (Val.vi _) => []
  | some (Val.vs _) => [(k, "Not a valid integer.")]

/-- Errors for the optional DateTime field (OrderSchema.order_date). -/
def optDateErrs (j : Input) (k : String) : SchemaErrs :=
  match j.lookup k with
  | none => []
  | some (Val.vi _) => []
  | some (Val.vs _) => [(k, "Not a valid datetime.")]

/-- Errors for an optional Integer field: the autoincrement primary key
id, which SQLAlchemyAutoSchema generates as a loadable field with
required=False (autoincrement counts as a default), so an id-bearing
body is accepted but a mistyped id is not. -/
def optIntErrs (j : Input) (k : String) : SchemaErrs :=
  match j.lookup k with
  | none => []
  | some (Val.vi _) => []
  | some (Val.vs _) => [(k, "Not a valid integer.")]

/-- Loadable fields of UserSchema (auto schema on User: the
autoincrement primary key id is loadable and optional, the relationship
`orders` is not included). -/
def userLoadFields : List String := ["id", "name", "address", "email"]

/-- Loadable fields of OrderSchema (id loadable optional, user_id
declared, order_date optional). -/
def orderLoadFields : List String := ["id", "user_id", "order_date"]

/-- Loadable fields of ProductSchema (id loadable optional). -/
def productLoadFields : List String := ["id", "product_name", "price"]

/-- Typed field set produced by UserSchema.load. -/
structure UserFields where
  name : String
  address : String
  email : String
deriving DecidableEq, Repr

/-- Typed field set produced by OrderSchema.load. -/
structure OrderFields where
  user_id : Int
  order_date : Option Int
deriving DecidableEq, Repr

/-- Typed field set produced by ProductSchema.load. -/
structure ProductFields where
  product_name : String
  price : Int
deriving DecidableEq, Repr

/-- All errors UserSchema collects on a load. -/
def user_schema_errs (j : Input) : SchemaErrs :=
  unknownErrs j userLoadFields ++ optIntErrs j "id" ++ strErrs j "name" ++ strErrs j "address" ++ strErrs j "email"

/-- user_schema.load (app.py lines 72-74, 91): collect every field
error; raise them if any, otherwise return the typed field set. -/
def user_schema_load (j : Input) : Except SchemaErrs UserFields :=
  if user_schema_errs j = [] then
    match j.lookup "name", j.lookup "address", j.lookup "email" with
    | some (Val.vs n), some (Val.vs a), some (Val.vs e) => Except.ok ⟨n, a, e⟩
    | _, _, _ => Except.error (user_schema_errs j)
  else Except.error (user_schema_errs j)

/-- All errors OrderSchema collects on a load. -/
def order_schema_errs (j : Input) : SchemaErrs :=
  unknownErrs j orderLoadFields ++ optIntErrs j "id" ++ intErrs j "user_id" ++ optDateErrs j "order_date"

/-- order_schema.load (app.py lines 77-83, 94). -/
def order_schema_load (j : Input) : Except SchemaErrs OrderFields :=
  if order_schema_errs j = [] then
    match j.lookup "user_id" with
    | some (Val.vi uid) =>
        Except.ok ⟨uid, match j.lookup "order_date" with
                        | some (Val.vi d) => some d
                        | _ => none⟩
    | _ => Except.error (order_schema_errs j)
  else Except.error (order_schema_errs j)

/-- All errors ProductSchema collects on a load. -/
def product_schema_errs (j : Input) : SchemaErrs :=
  unknownErrs j productLoadFields ++ optIntErrs j "id" ++ strErrs j "product_name" ++ numErrs j "price"

/-- product_schema.load (app.py lines 86-88, 97). -/
def product_schema_load (j : Input) : Except SchemaErrs ProductFields :=
  if product_schema_errs j = [] then
    match j.lookup "product_name", j.lookup "price" with
    | some (Val.vs n), some (Val.vi pr) => Except.ok ⟨n, pr⟩
    | _, _ => Except.error (product_schema_errs j)
  else Except.error (product_schema_errs j)

-- ======================= Route results =======================

/-- The distinct failure responses the routes produce.  The first
eleven are the jsonify'd structured responses of app.py with their
literal messages; `integrityError` is an exception raised by the store
at commit time that no route catches, so it escapes as an unhandled
error (HTTP 500) carrying raw store diagnostics. -/
inductive RouteErr
| validation (errs : SchemaErrs)
| invalidUserIdRef
| invalidUserId
| invalidOrderId
| invalidProductId
| orderNotFound
| noOrdersForUser
| noProductsForOrder
| productAlreadyInOrder
| productNotInOrder
| productNotFound
| productAssociated
| integrityError (detail : String)
deriving DecidableEq, Repr

/-- HTTP status each failure surfaces with. -/
def RouteErr.status : RouteErr → Nat
| .validation _ => 400
| .invalidUserIdRef => 400
| .invalidUserId => 400
| .invalidOrderId => 400
| .invalidProductId => 400
| .orderNotFound => 404
| .noOrdersForUser => 404
| .noProductsForOrder => 404
| .productAlreadyInOrder => 400
| .productNotInOrder => 404
| .productNotFound => 404
| .productAssociated => 400
| .integrityError _ => 500

/-- The message body of each failure (for validation, marshmallow's
per-field messages; for integrityError the raw store diagnostic). -/
def RouteErr.message : RouteErr → String
| .validation _ => "validation messages"
| .invalidUserIdRef => "Invalid user_id"
| .invalidUserId => "Invalid user id"
| .invalidOrderId => "Invalid order ID"
| .invalidProductId => "Invalid product ID"
| .orderNotFound => "Order not found"
| .noOrdersForUser => "No orders found for this user."
| .noProductsForOrder => "No products found for this order"
| .productAlreadyInOrder => "Product already exists in the order"
| .productNotInOrder => "Product not found in the order"
| .productNotFound => "Product not found"
| .productAssociated => "Cannot delete product because it is associated with orders"
| .integrityError d => d

/-- The spec's error taxonomy (spec section 7). -/
inductive ErrKind
| validationError
| notFoundError
| conflictError
| internalStoreError
deriving DecidableEq, Repr

/-- Mapping of each concrete failure response to the spec taxonomy:
malformed input and a nonexistent foreign reference at relation
creation are ValidationError; absent target ids and
absent associations are NotFoundError; duplicate association and
delete-while-referenced are ConflictError; an uncaught store exception
is the internal StoreError class. -/
def RouteErr.kind : RouteErr → ErrKind
| .validation _ => .validationError
| .invalidUserIdRef => .validationError
| .invalidUserId => .notFoundError
| .invalidOrderId => .notFoundError
| .invalidProductId => .notFoundError
| .orderNotFound => .notFoundError
| .noOrdersForUser => .notFoundError
| .noProductsForOrder => .notFoundError
| .productAlreadyInOrder => .conflictError
| .productNotInOrder => .notFoundError
| .productNotFound => .notFoundError
| .productAssociated => .conflictError
| .integrityError _ => .internalStoreError

/-- Whether the failure reaches the caller as a structured error (a
jsonify'd message) rather than a leaked raw store exception. -/
def RouteErr.structured : RouteErr → Bool
| .integrityError _ => false
| _ => true

-- ======================= Store lookups =======================

/-- db.session.get(User, i). -/
def find_user (s : Store) (i : Int) : Option User :=
  s.users.find? (fun u => u.id == i)

/-- db.session.get(Order, i). -/
def find_order (s : Store) (i : Int) : Option Order :=
  s.orders.find? (fun o => o.id == i)

/-- db.session.get(Product, i). -/
def find_product (s : Store) (i : Int) : Option Product :=
  s.products.find? (fun p => p.id == i)

/-- order.products: the relationship list resolved through the
order_product association table. -/
def order_products (s : Store) (oid : Int) : List Product :=
  s.order_product.filterMap (fun pr => if pr.1 = oid then find_product s pr.2 else none)

/-- product.orders: the reverse relationship list. -/
def product_orders (s : Store) (pid : Int) : List Order :=
  s.order_product.filterMap (fun pr => if pr.2 = pid then find_order s pr.1 else none)

-- ======================= Routes =======================

/-- POST /users (create_user, app.py lines 108-119).  The route
validates the body, then inserts and commits.  The users.email column
is declared unique=True (line 46); the route catches only the schema
ValidationError, so a duplicate email surfaces at commit as an uncaught
store IntegrityError. -/
def create_user (s : Store) (j : Input) : Except RouteErr (Store × User) :=
  match user_schema_load j with
  | Except.error errs => Except.error (RouteErr.validation errs)
  | Except.ok f =>
    if s.users.any (fun u => u.email == f.email) then
      Except.error (RouteErr.integrityError "Duplicate entry for key users.email")
    else
      let u : User := ⟨s.nextUserId, f.name, f.address, f.email⟩
      Except.ok ({ s with users := s.users ++ [u], nextUserId := s.nextUserId + 1 }, u)

/-- GET /users/<id> (get_user, app.py lines 130-134): no existence
check; a missing id serializes None as an empty body with status 200. -/
def get_user (s : Store) (i : Int) : Nat × Option User :=
  (200, find_user s i)

/-- PUT /users/<id> (update_user, app.py lines 137-154): full replace
of name/address/email.  No application-level uniqueness re-check: a new
email equal to another user's surfaces at commit as an uncaught store
IntegrityError. -/
def update_user (s : Store) (i : Int) (j : Input) : Except RouteErr (Store × User) :=
  match find_user s i with
  | none => Except.error RouteErr.invalidUserId
  | some u =>
    match user_schema_load j with
    | Except.error errs => Except.error (RouteErr.validation errs)
    | Except.ok f =>
      if s.users.any (fun v => v.id != i && v.email == f.email) then
        Except.error (RouteErr.integrityError "Duplicate entry for key users.email")
      else
        let u2 : User := { u with name := f.name, address := f.address, email := f.email }
        Except.ok ({ s with users := s.users.map (fun v => if v.id = i then u2 else v) }, u2)

/-- DELETE /users/<id> (delete_user, app.py lines 157-166).  The
orders.user_id foreign key restricts deletion: deleting a user that
still has orders fails at commit with an uncaught store error. -/
def delete_user (s : Store) (i : Int) : Except RouteErr Store :=
  match find_user s i with
  | none => Except.error RouteErr.invalidUserId
  | some _ =>
    if s.orders.any (fun o => o.user_id == i) then
      Except.error (RouteErr.integrityError "Cannot delete or update a parent row: a foreign key constraint fails on orders.user_id")
    else
      Except.ok { s with users := s.users.filter (fun u => u.id != i) }

/-- POST /orders (create_order, app.py lines 173-190): validates the
body, rejects a user_id with no matching User before any write, and
otherwise inserts with the server-assigned timestamp when order_date is
absent. -/
def create_order (s : Store) (now : Int) (j : Input) : Except RouteErr (Store × Order) :=
  match order_schema_load j with
  | Except.error errs => Except.error (RouteErr.validation errs)
  | Except.ok f =>
    match find_user s f.user_id with
    | none => Except.error RouteErr.invalidUserIdRef
    | some _ =>
      let o : Order := ⟨s.nextOrderId, f.order_date.getD now, f.user_id⟩
      Except.ok ({ s with orders := s.orders ++ [o], nextOrderId := s.nextOrderId + 1 }, o)

/-- GET /orders/user/<user_id> (get_orders, app.py lines 193-200). -/
def get_orders (s : Store) (uid : Int) : Except RouteErr (List Order) :=
  let l := s.orders.filter (fun o => o.user_id == uid)
  if l.isEmpty then Except.error RouteErr.noOrdersForUser else Except.ok l

/-- GET /orders/<order_id>/products (get_products_for_order, app.py
lines 203-215). -/
def get_products_for_order (s : Store) (oid : Int) : Except RouteErr (List Product) :=
  match find_order s oid with
  | none => Except.error RouteErr.orderNotFound
  | some _ =>
    let ps := order_products s oid
    if ps.isEmpty then Except.error RouteErr.noProductsForOrder else Except.ok ps

/-- PUT /orders/<order_id>/add_product/<product_id> (add_prod_to_order,
app.py lines 218-234).  `product in order.products` is membership of
the fetched row in the relationship list; appending it inserts the
(order_id, product_id) association row. -/
def add_prod_to_order (s : Store) (oid pid : Int) : Except RouteErr (Store × Order) :=
  match find_order s oid, find_product s pid with
  | none, _ => Except.error RouteErr.invalidOrderId
  | some _, none => Except.error RouteErr.invalidProductId
  | some o, some p =>
    if p ∈ order_products s oid then
      Except.error RouteErr.productAlreadyInOrder
    else
      Except.ok ({ s with order_product := s.order_product ++ [(oid, pid)] }, o)

/-- DELETE /orders/<order_id>/remove_product/<product_id>
(remove_prod_from_order, app.py lines 237-254).  Removing the row from
the relationship list deletes the first (order_id, product_id)
association row. -/
def remove_prod_from_order (s : Store) (oid pid : Int) : Except RouteErr Store :=
  match find_order s oid, find_product s pid with
  | none, _ => Except.error RouteErr.invalidOrderId
  | some _, none => Except.error RouteErr.invalidProductId
  | some _, some p =>
    if p ∈ order_products s oid then
      Except.ok { s with order_product := s.order_product.erase (oid, pid) }
    else
      Except.error RouteErr.productNotInOrder

/-- POST /products (create_product, app.py lines 261-272): validates
the body and inserts.  No constraint on the sign of price. -/
def create_product (s : Store) (j : Input) : Except RouteErr (Store × Product) :=
  match product_schema_load j with
  | Except.error errs => Except.error (RouteErr.validation errs)
  | Except.ok f =>
    let p : Product := ⟨s.nextProductId, f.product_name, f.price⟩
    Except.ok ({ s with products := s.products ++ [p], nextProductId := s.nextProductId + 1 }, p)

/-- GET /products/<id> (get_product, app.py lines 283-287): like
get_user, a missing id yields an empty body with status 200. -/
def get_product (s : Store) (i : Int) : Nat × Option Product :=
  (200, find_product s i)

/-- PUT /products/<id> (update_product, app.py lines 290-306): full
replace of product_name/price, no sign check on price. -/
def update_product (s : Store) (i : Int) (j : Input) : Except RouteErr (Store × Product) :=
  match find_product s i with
  | none => Except.error RouteErr.productNotFound
  | some p =>
    match product_schema_load j with
    | Except.error errs => Except.error (RouteErr.validation errs)
    | Except.ok f =>
      let p2 : Product := { p with product_name := f.product_name, price := f.price }
      Except.ok ({ s with products := s.products.map (fun q => if q.id = i then p2 else q) }, p2)

/-- DELETE /products/<id> (delete_product, app.py lines 309-321):
refuses while product.orders is nonempty, otherwise deletes the row. -/
def delete_product (s : Store) (i : Int) : Except RouteErr Store :=
  match find_product s i with
  | none => Except.error RouteErr.productNotFound
  | some _ =>
    if product_orders s i ≠ [] then
      Except.error RouteErr.productAssociated
    else
      Except.ok { s with products := s.products.filter (fun p => p.id != i) }

-- ======================= Operation sequences =======================

/-- One mutating call against the store (the read-only routes do not
change it). -/
inductive Op
| createUser (j : Input)
| updateUser (i : Int) (j : Input)
| deleteUser (i : Int)
| createOrder (now : Int) (j : Input)
| addProd (oid pid : Int)
| removeProd (oid pid : Int)
| createProduct (j : Input)
| updateProduct (i : Int) (j : Input)
| deleteProduct (i : Int)

/-- The store after one call: a failed call commits nothing (every
route returns before db.session.add on its error paths, and an
exception at commit rolls the transaction back). -/
def runOp (s : Store) : Op → Store
| Op.createUser j =>
    match create_user s j with
    | Except.ok (s2, _) => s2
    | Except.error _ => s
| Op.updateUser i j =>
    match update_user s i j with
    | Except.ok (s2, _) => s2
    | Except.error _ => s
| Op.deleteUser i =>
    match delete_user s i with
    | Except.ok s2 => s2
    | Except.error _ => s
| Op.createOrder now j =>
    match create_order s now j with
    | Except.ok (s2, _) => s2
    | Except.error _ => s
| Op.addProd oid pid =>
    match add_prod_to_order s oid pid with
    | Except.ok (s2, _) => s2
    | Except.error _ => s
| Op.removeProd oid pid =>
    match remove_prod_from_order s oid pid with
    | Except.ok s2 => s2
    | Except.error _ => s
| Op.createProduct j =>
    match create_product s j with
    | Except.ok (s2, _) => s2
    | Except.error _ => s
| Op.updateProduct i j =>
    match update_product s i j with
    | Except.ok (s2, _) => s2
    | Except.error _ => s
| Op.deleteProduct i =>
    match delete_product s i with
    | Except.ok s2 => s2
    | Except.error _ => s

/-- The store after a sequence of calls. -/
def runOps (s : Store) (ops : List Op) : Store :=
  ops.foldl runOp s

-- ======================= Concrete fixtures =======================

/-- A valid customer body. -/
def jUser : Input := [("name", Val.vs "A"), ("address", Val.vs "X"), ("email", Val.vs "a@x.com")]

/-- A second customer body reusing the first customer's email. -/
def jUserDup : Input := [("name", Val.vs "B"), ("address", Val.vs "Y"), ("email", Val.vs "a@x.com")]

/-- A second customer body with a fresh email. -/
def jUserB : Input := [("name", Val.vs "B"), ("address", Val.vs "Y"), ("email", Val.vs "b@x.com")]

/-- The first customer body with an extra unknown field. -/
def jUserExtra : Input :=
  [("name", Val.vs "A"), ("address", Val.vs "X"), ("email", Val.vs "a@x.com"), ("extra", Val.vi 1)]

/-- The first customer body carrying the loadable optional primary key
field id. -/
def jUserWithId : Input :=
  [("id", Val.vi 1), ("name", Val.vs "A"), ("address", Val.vs "X"), ("email", Val.vs "a@x.com")]

/-- A valid product body. -/
def jProduct : Input := [("product_name", Val.vs "Widget"), ("price", Val.vi 9)]

/-- A well-typed product body with a negative price. -/
def jNegProduct : Input := [("product_name", Val.vs "Widget"), ("price", Val.vi (-1))]

/-- A valid order body referencing customer 1. -/
def jOrder : Input := [("user_id", Val.vi 1)]

/-- One customer committed. -/
def oneUserStore : Store := runOps emptyStore [Op.createUser jUser]

/-- Two customers with distinct emails committed. -/
def twoUserStore : Store := runOps emptyStore [Op.createUser jUser, Op.createUser jUserB]

/-- One product committed, no orders. -/
def oneProductStore : Store := runOps emptyStore [Op.createProduct jProduct]

/-- Customer 1, product 1 and order 1 committed, no association yet. -/
def preAddOps : List Op := [Op.createUser jUser, Op.createProduct jProduct, Op.createOrder 5 jOrder]

/-- The store after preAddOps. -/
def preAddStore : Store := runOps emptyStore preAddOps

/-- preAddOps followed by associating product 1 to order 1. -/
def seedOps : List Op := preAddOps ++ [Op.addProd 1 1]

/-- The store after seedOps: order 1 holds product 1. -/
def seedStore : Store := runOps emptyStore seedOps

-- ======================= Helper lemmas =======================

lemma find_user_id {s : Store} {i : Int} {u : User} (h : find_user s i = some u) :
    u.id = i := by
  unfold find_user at h
  have := List.find?_some h
  simpa using this

lemma find_order_id {s : Store} {i : Int} {o : Order} (h : find_order s i = some o) :
    o.id = i := by
  unfold find_order at h
  have := List.find?_some h
  simpa using this

lemma find_product_id {s : Store} {i : Int} {p : Product} (h : find_product s i = some p) :
    p.id = i := by
  unfold find_product at h
  have := List.find?_some h
  simpa using this

/-- Membership of a fetched product row in a relationship list is
exactly presence of the corresponding association pair. -/
lemma mem_filterMap_assoc {s : Store} {oid pid : Int} {p : Product}
    (hp : find_product s pid = some p) (l : List (Int × Int)) :
    p ∈ l.filterMap (fun pr => if pr.1 = oid then find_product s pr.2 else none) ↔
      (oid, pid) ∈ l := by
  constructor
  · intro hm
    obtain ⟨pr, hpr, hf⟩ := List.mem_filterMap.mp hm
    by_cases h1 : pr.1 = oid
    · rw [if_pos h1] at hf
      have h2 : p.id = pr.2 := find_product_id hf
      have h3 : p.id = pid := find_product_id hp
      have : pr = (oid, pid) := by
        cases pr
        simp only at h1 h2
        simp [h1, ← h2, h3]
      rwa [this] at hpr
    · rw [if_neg h1] at hf
      cases hf
  · intro hm
    exact List.mem_filterMap.mpr ⟨(oid, pid), hm, by simpa using hp⟩

lemma mem_order_products {s : Store} {oid pid : Int} {p : Product}
    (hp : find_product s pid = some p) :
    p ∈ order_products s oid ↔ (oid, pid) ∈ s.order_product :=
  mem_filterMap_assoc hp s.order_product

/-- In a duplicate-free association table that holds the pair, the
relationship list shows the product exactly once. -/
lemma count_filterMap_assoc {s : Store} {oid pid : Int} {p : Product}
    (hp : find_product s pid = some p) :
    ∀ l : List (Int × Int), l.Nodup → (oid, pid) ∈ l →
      (l.filterMap (fun pr => if pr.1 = oid then find_product s pr.2 else none)).count p = 1 := by
  intro l
  induction l with
  | nil => intro _ hm; cases hm
  | cons a t ih =>
    intro hnd hm
    obtain ⟨ha, hndt⟩ := List.nodup_cons.mp hnd
    rw [List.filterMap_cons]
    by_cases heq : a = (oid, pid)
    · subst heq
      have hnm : p ∉ t.filterMap (fun pr => if pr.1 = oid then find_product s pr.2 else none) := by
        intro hmem
        exact ha ((mem_filterMap_assoc hp t).mp hmem)
      simp [hp, List.count_cons, List.count_eq_zero.mpr hnm]
    · have hmt : (oid, pid) ∈ t := by
        rcases List.mem_cons.mp hm with h | h
        · exact absurd h.symm heq
        · exact h
      cases hfa : (if a.1 = oid then find_product s a.2 else none) with
      | none => simpa [hfa] using ih hndt hmt
      | some q =>
        have hq : ¬ (p = q) := by
          intro hpq
          by_cases h1 : a.1 = oid
          · rw [if_pos h1] at hfa
            have h2 : q.id = a.2 := find_product_id hfa
            have h3 : p.id = pid := find_product_id hp
            apply heq
            cases a
            simp only at h1 h2
            simp [h1, ← h2, ← hpq, h3]
          · rw [if_neg h1] at hfa
            cases hfa
        simp [hfa, List.count_cons, hq, ih hndt hmt]

/-- A committed create_user leaves the association table unchanged. -/
lemma create_user_assoc {s : Store} {j : Input} {s2 : Store} {u : User}
    (h : create_user s j = Except.ok (s2, u)) : s2.order_product = s.order_product := by
  unfold create_user at h
  split at h
  · cases h
  · split at h
    · cases h
    · cases h
      rfl

/-- A committed update_user leaves the association table unchanged. -/
lemma update_user_assoc {s : Store} {i : Int} {j : Input} {s2 : Store} {u : User}
    (h : update_user s i j = Except.ok (s2, u)) : s2.order_product = s.order_product := by
  unfold update_user at h
  split at h
  · cases h
  · split at h
    · cases h
    · split at h
      · cases h
      · cases h
        rfl

/-- A committed delete_user leaves the association table unchanged. -/
lemma delete_user_assoc {s : Store} {i : Int} {s2 : Store}
    (h : delete_user s i = Except.ok s2) : s2.order_product = s.order_product := by
  unfold delete_user at h
  split at h
  · cases h
  · split at h
    · cases h
    · cases h
      rfl

/-- A committed create_order leaves the association table unchanged. -/
lemma create_order_assoc {s : Store} {now : Int} {j : Input} {s2 : Store} {o : Order}
    (h : create_order s now j = Except.ok (s2, o)) : s2.order_product = s.order_product := by
  unfold create_order at h
  split at h
  · cases h
  · split at h
    · cases h
    · cases h
      rfl

/-- A committed create_product leaves the association table unchanged. -/
lemma create_product_assoc {s : Store} {j : Input} {s2 : Store} {p : Product}
    (h : create_product s j = Except.ok (s2, p)) : s2.order_product = s.order_product := by
  unfold create_product at h
  split at h
  · cases h
  · cases h
    rfl

/-- A committed update_product leaves the association table unchanged. -/
lemma update_product_assoc {s : Store} {i : Int} {j : Input} {s2 : Store} {p : Product}
    (h : update_product s i j = Except.ok (s2, p)) : s2.order_product = s.order_product := by
  unfold update_product at h
  split at h
  · cases h
  · split at h
    · cases h
    · cases h
      rfl

/-- A committed delete_product leaves the association table unchanged
(the guard only lets an unreferenced product through). -/
lemma delete_product_assoc {s : Store} {i : Int} {s2 : Store}
    (h : delete_product s i = Except.ok s2) : s2.order_product = s.order_product := by
  unfold delete_product at h
  split at h
  · cases h
  · split at h
    · cases h
    · cases h
      rfl

/-- A committed add_prod_to_order appends exactly the one new pair,
which was not previously present. -/
lemma add_prod_assoc {s : Store} {oid pid : Int} {s2 : Store} {o : Order}
    (h : add_prod_to_order s oid pid = Except.ok (s2, o)) :
    s2.order_product = s.order_product ++ [(oid, pid)] ∧ (oid, pid) ∉ s.order_product := by
  unfold add_prod_to_order at h
  split at h
  · cases h
  · cases h
  · rename_i o1 p1 ho1 hp1
    split at h
    · cases h
    · rename_i hnm
      cases h
      exact ⟨rfl, fun hmem => hnm ((mem_order_products hp1).mpr hmem)⟩

/-- A committed remove_prod_from_order erases the pair. -/
lemma remove_prod_assoc {s : Store} {oid pid : Int} {s2 : Store}
    (h : remove_prod_from_order s oid pid = Except.ok s2) :
    s2.order_product = s.order_product.erase (oid, pid) := by
  unfold remove_prod_from_order at h
  split at h
  · cases h
  · cases h
  · split at h
    · cases h
      rfl
    · cases h

/-- Invariant: no operation ever introduces a duplicate association
pair. -/
lemma runOp_assoc_nodup {s : Store} (op : Op) (h : s.order_product.Nodup) :
    (runOp s op).order_product.Nodup := by
  cases op with
  | createUser j =>
    simp only [runOp]
    split
    · rename_i s2 u heq
      rw [create_user_assoc heq]
      exact h
    · exact h
  | updateUser i j =>
    simp only [runOp]
    split
    · rename_i s2 u heq
      rw [update_user_assoc heq]
      exact h
    · exact h
  | deleteUser i =>
    simp only [runOp]
    split
    · rename_i s2 heq
      rw [delete_user_assoc heq]
      exact h
    · exact h
  | createOrder now j =>
    simp only [runOp]
    split
    · rename_i s2 o heq
      rw [create_order_assoc heq]
      exact h
    · exact h
  | addProd oid pid =>
    simp only [runOp]
    split
    · rename_i s2 o heq
      obtain ⟨he, hnm⟩ := add_prod_assoc heq
      rw [he]
      simp [List.nodup_append, h, hnm]
    · exact h
  | removeProd oid pid =>
    simp only [runOp]
    split
    · rename_i s2 heq
      rw [remove_prod_assoc heq]
      exact h.erase _
    · exact h
  | createProduct j =>
    simp only [runOp]
    split
    · rename_i s2 p heq
      rw [create_product_assoc heq]
      exact h
    · exact h
  | updateProduct i j =>
    simp only [runOp]
    split
    · rename_i s2 p heq
      rw [update_product_assoc heq]
      exact h
    · exact h
  | deleteProduct i =>
    simp only [runOp]
    split
    · rename_i s2 heq
      rw [delete_product_assoc heq]
      exact h
    · exact h

/-- The duplicate-free invariant holds in every store reachable from a
fresh database. -/
lemma runOps_assoc_nodup (ops : List Op) :
    (runOps emptyStore ops).order_product.Nodup := by
  have main : ∀ (l : List Op) (s : Store), s.order_product.Nodup →
      (runOps s l).order_product.Nodup := by
    intro l
    induction l with
    | nil => intro s hs; exact hs
    | cons op t ih =>
      intro s hs
      exact ih (runOp s op) (runOp_assoc_nodup op hs)
  exact main ops emptyStore (by simp [emptyStore])

-- ======================= Claims =======================

/-- C1: a createOrder request whose user_id does not reference an
existing Customer fails with the ValidationError-class response
carrying the message Invalid user_id, and the failed call leaves the
store's order set unchanged. -/
theorem claim1_create_order_invalid_user (s : Store) (now : Int) (j : Input)
    (f : OrderFields)
    (hload : order_schema_load j = Except.ok f)
    (hno : find_user s f.user_id = none) :
    create_order s now j = Except.error RouteErr.invalidUserIdRef ∧
    RouteErr.invalidUserIdRef.kind = ErrKind.validationError ∧
    RouteErr.invalidUserIdRef.message = "Invalid user_id" ∧
    (runOp s (Op.createOrder now j)).orders = s.orders := by
  have hco : create_order s now j = Except.error RouteErr.invalidUserIdRef := by
    simp only [create_order, hload, hno]
  refine ⟨hco, rfl, rfl, ?_⟩
  simp only [runOp, hco]

/-- Witness for C1: on a fresh store a well-formed order body
referencing customer 1 is rejected with Invalid user_id. -/
theorem claim1_witness :
    order_schema_load jOrder = Except.ok ⟨1, none⟩ ∧
    find_user emptyStore (1 : Int) = none ∧
    create_order emptyStore 7 jOrder = Except.error RouteErr.invalidUserIdRef :=
  ⟨by decide, by decide,
   (claim1_create_order_invalid_user emptyStore 7 jOrder ⟨1, none⟩ (by decide) (by decide)).1⟩

/-- C9: fetching a customer by a missing id returns an empty/null
representation with HTTP 200 rather than a NotFoundError, and fetching
a catalog item by a missing id behaves the same way. -/
theorem claim9_get_missing_returns_success (s : Store) (i : Int)
    (hu : find_user s i = none) :
    get_user s i = (200, none) ∧
    (∀ t : Store, ∀ k : Int, find_product t k = none → get_product t k = (200, none)) := by
  constructor
  · simp [get_user, hu]
  · intro t k h
    simp [get_product, h]

/-- Witness for C9: id 1 on a fresh store. -/
theorem claim9_witness :
    find_user emptyStore (1 : Int) = none ∧
    get_user emptyStore 1 = (200, none) ∧
    get_product emptyStore 1 = (200, none) :=
  ⟨by decide,
   (claim9_get_missing_returns_success emptyStore 1 (by decide)).1,
   (claim9_get_missing_returns_success emptyStore 1 (by decide)).2 emptyStore 1 (by decide)⟩

/-- C4 (code bug): creating a second customer with an existing email
does fail and leaves the first customer unchanged, but the failure is
the store's unique-constraint IntegrityError escaping uncaught (HTTP
500 with raw store diagnostics), not a structured ConflictError: the
route only catches the schema ValidationError. -/
theorem claim4_duplicate_email_leaks_store_error :
    create_user emptyStore jUser = Except.ok (oneUserStore, ⟨1, "A", "X", "a@x.com"⟩) ∧
    create_user oneUserStore jUserDup =
      Except.error (RouteErr.integrityError "Duplicate entry for key users.email") ∧
    (RouteErr.integrityError "Duplicate entry for key users.email").structured = false ∧
    (RouteErr.integrityError "Duplicate entry for key users.email").kind =
      ErrKind.internalStoreError ∧
    runOp oneUserStore (Op.createUser jUserDup) = oneUserStore ∧
    find_user (runOp oneUserStore (Op.createUser jUserDup)) 1 =
      some ⟨1, "A", "X", "a@x.com"⟩ := by
  decide

/-- C6 (code bug): updateCustomer on a missing id does fail with the
NotFoundError-class response, and a successful update fully replaces
the fields; but updating a customer to an email already used by a
different customer is not re-validated in the route: the store's
unique-constraint IntegrityError escapes uncaught instead of a
structured ConflictError, and the customer row is left unchanged only
because the transaction fails. -/
theorem claim6_update_email_leaks_store_error :
    find_user twoUserStore 2 = some ⟨2, "B", "Y", "b@x.com"⟩ ∧
    user_schema_load jUserDup = Except.ok ⟨"B", "Y", "a@x.com"⟩ ∧
    update_user twoUserStore 2 jUserDup =
      Except.error (RouteErr.integrityError "Duplicate entry for key users.email") ∧
    (RouteErr.integrityError "Duplicate entry for key users.email").structured = false ∧
    (RouteErr.integrityError "Duplicate entry for key users.email").kind =
      ErrKind.internalStoreError ∧
    runOp twoUserStore (Op.updateUser 2 jUserDup) = twoUserStore ∧
    update_user twoUserStore 5 jUserDup = Except.error RouteErr.invalidUserId ∧
    RouteErr.invalidUserId.kind = ErrKind.notFoundError ∧
    update_user twoUserStore 2 jUserB =
      Except.ok (twoUserStore, ⟨2, "B", "Y", "b@x.com"⟩) := by
  decide

/-- C5 counterexample: createCatalogItem commits a well-typed body with
price -1 as-is, so a committed operation persists a catalog item with
a negative price, refuting the claim at this input. -/
theorem claim5_counterexample :
    runOp emptyStore (Op.createProduct jNegProduct) =
      { emptyStore with products := [⟨1, "Widget", -1⟩], nextProductId := 2 } ∧
    ¬ (∀ p ∈ (runOp emptyStore (Op.createProduct jNegProduct)).products, 0 ≤ p.price) := by
  decide

/-- C5 amended: neither createCatalogItem nor updateCatalogItem checks
the sign of the price; any well-typed price, negative included, is
committed unchanged. -/
theorem claim5_amended_price_passthrough (s : Store) (j : Input) (f : ProductFields)
    (hload : product_schema_load j = Except.ok f) :
    create_product s j =
      Except.ok ({ s with
          products := s.products ++ [⟨s.nextProductId, f.product_name, f.price⟩],
          nextProductId := s.nextProductId + 1 },
        ⟨s.nextProductId, f.product_name, f.price⟩) ∧
    (∀ i p, find_product s i = some p →
      update_product s i j =
        Except.ok ({ s with
            products := s.products.map
              (fun q => if q.id = i then ⟨p.id, f.product_name, f.price⟩ else q) },
          ⟨p.id, f.product_name, f.price⟩)) := by
  constructor
  · simp only [create_product, hload]
  · intro i p hp
    simp only [update_product, hp, hload]

/-- Witness for the C5 amended claim: the negative-price body is
committed verbatim on a fresh store. -/
theorem claim5_witness :
    product_schema_load jNegProduct = Except.ok ⟨"Widget", -1⟩ ∧
    create_product emptyStore jNegProduct =
      Except.ok ({ emptyStore with
          products := emptyStore.products ++ [⟨emptyStore.nextProductId, "Widget", -1⟩],
          nextProductId := emptyStore.nextProductId + 1 },
        ⟨emptyStore.nextProductId, "Widget", -1⟩) :=
  ⟨by decide,
   (claim5_amended_price_passthrough emptyStore jNegProduct ⟨"Widget", -1⟩ (by decide)).1⟩

/-- An input key outside the schema's loadable fields always produces
an Unknown field error. -/
lemma mem_unknownErrs {j : Input} {k : String} {v : Val} {allowed : List String}
    (hk : (k, v) ∈ j) (hna : k ∉ allowed) :
    (k, "Unknown field.") ∈ unknownErrs j allowed := by
  unfold unknownErrs
  exact List.mem_filterMap.mpr ⟨(k, v), hk, by simp [hna]⟩

/-- C8 counterexample: the customer body that is valid on the declared
fields is rejected once an unrecognized extra field is present, because
the schemas keep marshmallow's default unknown = RAISE; a declared but
optional field such as the primary key id is still accepted. -/
theorem claim8_counterexample :
    user_schema_load jUser = Except.ok ⟨"A", "X", "a@x.com"⟩ ∧
    user_schema_load jUserWithId = Except.ok ⟨"A", "X", "a@x.com"⟩ ∧
    user_schema_load jUserExtra = Except.error [("extra", "Unknown field.")] := by
  decide

/-- C8 amended: for every entity kind, validation rejects an input
containing an unknown extra field, reporting that field with an
Unknown field message. -/
theorem claim8_amended_unknown_rejected (j : Input) (k : String) (v : Val)
    (hk : (k, v) ∈ j) :
    (k ∉ userLoadFields →
      ∃ errs, user_schema_load j = Except.error errs ∧ (k, "Unknown field.") ∈ errs) ∧
    (k ∉ productLoadFields →
      ∃ errs, product_schema_load j = Except.error errs ∧ (k, "Unknown field.") ∈ errs) ∧
    (k ∉ orderLoadFields →
      ∃ errs, order_schema_load j = Except.error errs ∧ (k, "Unknown field.") ∈ errs) := by
  refine ⟨?_, ?_, ?_⟩
  · intro hku
    have hmem : (k, "Unknown field.") ∈ user_schema_errs j := by
      unfold user_schema_errs
      simp only [List.mem_append]
      exact Or.inl (Or.inl (Or.inl (Or.inl (mem_unknownErrs hk hku))))
    have hne : user_schema_errs j ≠ [] := by
      intro h0
      rw [h0] at hmem
      cases hmem
    refine ⟨user_schema_errs j, ?_, hmem⟩
    unfold user_schema_load
    rw [if_neg hne]
  · intro hkp
    have hmem : (k, "Unknown field.") ∈ product_schema_errs j := by
      unfold product_schema_errs
      simp only [List.mem_append]
      exact Or.inl (Or.inl (Or.inl (mem_unknownErrs hk hkp)))
    have hne : product_schema_errs j ≠ [] := by
      intro h0
      rw [h0] at hmem
      cases hmem
    refine ⟨product_schema_errs j, ?_, hmem⟩
    unfold product_schema_load
    rw [if_neg hne]
  · intro hko
    have hmem : (k, "Unknown field.") ∈ order_schema_errs j := by
      unfold order_schema_errs
      simp only [List.mem_append]
      exact Or.inl (Or.inl (Or.inl (mem_unknownErrs hk hko)))
    have hne : order_schema_errs j ≠ [] := by
      intro h0
      rw [h0] at hmem
      cases hmem
    refine ⟨order_schema_errs j, ?_, hmem⟩
    unfold order_schema_load
    rw [if_neg hne]

/-- Witness for the C8 amended claim: the concrete extra field on the
customer body is reported as an unknown field. -/
theorem claim8_witness :
    ("extra", Val.vi 1) ∈ jUserExtra ∧ "extra" ∉ userLoadFields ∧
    (∃ errs, user_schema_load jUserExtra = Except.error errs ∧
      ("extra", "Unknown field.") ∈ errs) :=
  ⟨by decide, by decide,
   (claim8_amended_unknown_rejected jUserExtra "extra" (Val.vi 1) (by decide)).1 (by decide)⟩

/-- C3: deleteCatalogItem fails with the NotFoundError-class response
when the id is absent; fails with the ConflictError-class response and
keeps the item when at least one association references it; and once
no association references the item the same delete succeeds and
removes it. -/
theorem claim3_delete_product_guard (s : Store) (pid : Int) :
    (find_product s pid = none →
      delete_product s pid = Except.error RouteErr.productNotFound ∧
      RouteErr.productNotFound.kind = ErrKind.notFoundError) ∧
    (∀ p oid ord, find_product s pid = some p → (oid, pid) ∈ s.order_product →
      find_order s oid = some ord →
      delete_product s pid = Except.error RouteErr.productAssociated ∧
      RouteErr.productAssociated.kind = ErrKind.conflictError ∧
      runOp s (Op.deleteProduct pid) = s ∧
      find_product (runOp s (Op.deleteProduct pid)) pid = some p) ∧
    (∀ p, find_product s pid = some p → (∀ pr ∈ s.order_product, pr.2 ≠ pid) →
      delete_product s pid =
        Except.ok { s with products := s.products.filter (fun q => q.id != pid) }) := by
  refine ⟨?_, ?_, ?_⟩
  · intro h
    exact ⟨by simp [delete_product, h], rfl⟩
  · intro p oid ord hp hm ho
    have hne : product_orders s pid ≠ [] := by
      have hin : ord ∈ product_orders s pid := by
        unfold product_orders
        exact List.mem_filterMap.mpr ⟨(oid, pid), hm, by simp [ho]⟩
      intro h0
      rw [h0] at hin
      cases hin
    have hdel : delete_product s pid = Except.error RouteErr.productAssociated := by
      simp only [delete_product, hp]
      rw [if_pos hne]
    have hrun : runOp s (Op.deleteProduct pid) = s := by
      simp only [runOp, hdel]
    exact ⟨hdel, rfl, hrun, by rw [hrun]; exact hp⟩
  · intro p hp hall
    have hempty : product_orders s pid = [] := by
      cases hL : product_orders s pid with
      | nil => rfl
      | cons a t =>
        have hin : a ∈ product_orders s pid := by
          rw [hL]
          exact List.mem_cons_self a t
        obtain ⟨pr, hpr, hf⟩ := List.mem_filterMap.mp hin
        by_cases h2 : pr.2 = pid
        · exact absurd h2 (hall pr hpr)
        · rw [if_neg h2] at hf
          cases hf
    simp [delete_product, hp, hempty]

/-- Witness for C3: delete on a missing id, on the associated product
of seedStore, and on the unreferenced product of oneProductStore. -/
theorem claim3_witness :
    delete_product emptyStore 1 = Except.error RouteErr.productNotFound ∧
    delete_product seedStore 1 = Except.error RouteErr.productAssociated ∧
    delete_product oneProductStore 1 =
      Except.ok { oneProductStore with
        products := oneProductStore.products.filter (fun q => q.id != (1 : Int)) } :=
  ⟨((claim3_delete_product_guard emptyStore 1).1 (by decide)).1,
   ((claim3_delete_product_guard seedStore 1).2.1 ⟨1, "Widget", 9⟩ 1 ⟨1, 5, 1⟩
      (by decide) (by decide) (by decide)).1,
   (claim3_delete_product_guard oneProductStore 1).2.2 ⟨1, "Widget", 9⟩
      (by decide) (by decide)⟩

/-- C10: a successful addItemToOrder changes only the association
table, appending the single new pair: the customers, orders and
products tables are untouched, the returned order is the fetched row,
and every other order's relationship list is unchanged. -/
theorem claim10_add_item_frame (s : Store) (oid pid : Int) (ord : Order) (p : Product)
    (s1 : Store) (o1 : Order)
    (ho : find_order s oid = some ord) (hp : find_product s pid = some p)
    (hnm : (oid, pid) ∉ s.order_product)
    (hadd : add_prod_to_order s oid pid = Except.ok (s1, o1)) :
    s1.users = s.users ∧ s1.orders = s.orders ∧ s1.products = s.products ∧
    s1.order_product = s.order_product ++ [(oid, pid)] ∧
    o1 = ord ∧
    (∀ oid2, oid2 ≠ oid → order_products s1 oid2 = order_products s oid2) := by
  have hmm : p ∉ order_products s oid := fun hmem => hnm ((mem_order_products hp).mp hmem)
  have hadd2 : add_prod_to_order s oid pid =
      Except.ok ({ s with order_product := s.order_product ++ [(oid, pid)] }, ord) := by
    simp only [add_prod_to_order, ho, hp]
    rw [if_neg hmm]
  rw [hadd2] at hadd
  simp only [Except.ok.injEq, Prod.mk.injEq] at hadd
  obtain ⟨hs1, ho1⟩ := hadd
  subst hs1
  subst ho1
  refine ⟨rfl, rfl, rfl, rfl, rfl, ?_⟩
  intro oid2 hne2
  unfold order_products
  show (s.order_product ++ [(oid, pid)]).filterMap
      (fun pr => if pr.1 = oid2 then
        find_product { s with order_product := s.order_product ++ [(oid, pid)] } pr.2 else none) =
    s.order_product.filterMap (fun pr => if pr.1 = oid2 then find_product s pr.2 else none)
  have hfp : find_product { s with order_product := s.order_product ++ [(oid, pid)] } =
      find_product s := rfl
  simp only [hfp]
  rw [List.filterMap_append]
  have hsingle : [(oid, pid)].filterMap
      (fun pr => if pr.1 = oid2 then find_product s pr.2 else none) = [] := by
    have hcond : ¬ ((oid, pid).1 = oid2) := fun h => hne2 h.symm
    simp [List.filterMap_cons, hcond]
  rw [hsingle, List.append_nil]

/-- Witness for C10: the concrete association of product 1 to order 1
on preAddStore only appends the pair (1, 1). -/
theorem claim10_witness :
    ((1 : Int), (1 : Int)) ∉ preAddStore.order_product ∧
    add_prod_to_order preAddStore 1 1 = Except.ok (seedStore, ⟨1, 5, 1⟩) ∧
    seedStore.order_product = preAddStore.order_product ++ [(1, 1)] :=
  ⟨by decide, by decide,
   (claim10_add_item_frame preAddStore 1 1 ⟨1, 5, 1⟩ ⟨1, "Widget", 9⟩ seedStore ⟨1, 5, 1⟩
      (by decide) (by decide) (by decide) (by decide)).2.2.2.1⟩

/-- C7: for an existing order and item with the pair not associated,
addItemToOrder then removeItemFromOrder restores the association table,
the item is absent from the order's relationship list, and a further
removeItemFromOrder on the now non-associated pair fails with the
NotFoundError-class response; removeItemFromOrder also fails that way
when either id is absent. -/
theorem claim7_add_remove_roundtrip (s : Store) (oid pid : Int) (ord : Order) (p : Product)
    (ho : find_order s oid = some ord) (hp : find_product s pid = some p)
    (hnm : (oid, pid) ∉ s.order_product) :
    (∃ s1, add_prod_to_order s oid pid = Except.ok (s1, ord) ∧
      ∃ s2, remove_prod_from_order s1 oid pid = Except.ok s2 ∧
        p ∉ order_products s2 oid ∧
        remove_prod_from_order s2 oid pid = Except.error RouteErr.productNotInOrder ∧
        RouteErr.productNotInOrder.kind = ErrKind.notFoundError) ∧
    (∀ t : Store, ∀ o2 p2 : Int, find_order t o2 = none →
      remove_prod_from_order t o2 p2 = Except.error RouteErr.invalidOrderId ∧
      RouteErr.invalidOrderId.kind = ErrKind.notFoundError) ∧
    (∀ t : Store, ∀ o2 p2 : Int, ∀ ordx : Order, find_order t o2 = some ordx →
      find_product t p2 = none →
      remove_prod_from_order t o2 p2 = Except.error RouteErr.invalidProductId ∧
      RouteErr.invalidProductId.kind = ErrKind.notFoundError) := by
  refine ⟨?_, ?_, ?_⟩
  · have hmm : p ∉ order_products s oid := fun hmem => hnm ((mem_order_products hp).mp hmem)
    have hadd : add_prod_to_order s oid pid =
        Except.ok ({ s with order_product := s.order_product ++ [(oid, pid)] }, ord) := by
      simp only [add_prod_to_order, ho, hp]
      rw [if_neg hmm]
    have ho1 : find_order { s with order_product := s.order_product ++ [(oid, pid)] } oid =
        some ord := ho
    have hp1 : find_product { s with order_product := s.order_product ++ [(oid, pid)] } pid =
        some p := hp
    have hmem1 : p ∈ order_products { s with order_product := s.order_product ++ [(oid, pid)] } oid :=
      (mem_order_products hp1).mpr (by simp)
    have hrem2 : remove_prod_from_order { s with order_product := s.order_product ++ [(oid, pid)] } oid pid =
        Except.ok { s with order_product := (s.order_product ++ [(oid, pid)]).erase (oid, pid) } := by
      simp only [remove_prod_from_order, ho1, hp1]
      rw [if_pos hmem1]
    have herase : (s.order_product ++ [(oid, pid)]).erase (oid, pid) = s.order_product := by
      rw [List.erase_append_right _ hnm, List.erase_cons_head, List.append_nil]
    rw [herase] at hrem2
    have hrem3 : remove_prod_from_order { s with order_product := s.order_product ++ [(oid, pid)] } oid pid =
        Except.ok s := hrem2
    have hfail : remove_prod_from_order s oid pid = Except.error RouteErr.productNotInOrder := by
      simp only [remove_prod_from_order, ho, hp]
      rw [if_neg hmm]
    exact ⟨_, hadd, s, hrem3, hmm, hfail, rfl⟩
  · intro t o2 p2 h
    refine ⟨?_, rfl⟩
    simp only [remove_prod_from_order, h]
  · intro t o2 p2 ordx h1 h2
    refine ⟨?_, rfl⟩
    simp only [remove_prod_from_order, h1, h2]

/-- Witness for C7: the add/remove/remove-again round trip for order 1
and product 1 on preAddStore. -/
theorem claim7_witness :
    find_order preAddStore 1 = some ⟨1, 5, 1⟩ ∧
    find_product preAddStore 1 = some ⟨1, "Widget", 9⟩ ∧
    ((1 : Int), (1 : Int)) ∉ preAddStore.order_product ∧
    (∃ s1, add_prod_to_order preAddStore 1 1 = Except.ok (s1, ⟨1, 5, 1⟩) ∧
      ∃ s2, remove_prod_from_order s1 1 1 = Except.ok s2 ∧
        (⟨1, "Widget", 9⟩ : Product) ∉ order_products s2 1 ∧
        remove_prod_from_order s2 1 1 = Except.error RouteErr.productNotInOrder ∧
        RouteErr.productNotInOrder.kind = ErrKind.notFoundError) :=
  ⟨by decide, by decide, by decide,
   (claim7_add_remove_roundtrip preAddStore 1 1 ⟨1, 5, 1⟩ ⟨1, "Widget", 9⟩
      (by decide) (by decide) (by decide)).1⟩

/-- C2: in every store reachable from a fresh database the association
table is duplicate-free; adding an already-associated item fails with
the ConflictError-class already exists response and commits nothing;
and the order's item listing shows the item exactly once. -/
theorem claim2_duplicate_add_conflict (ops : List Op) (s : Store)
    (hs : s = runOps emptyStore ops) (oid pid : Int) (ord : Order) (p : Product)
    (ho : find_order s oid = some ord) (hp : find_product s pid = some p)
    (hm : (oid, pid) ∈ s.order_product) :
    add_prod_to_order s oid pid = Except.error RouteErr.productAlreadyInOrder ∧
    RouteErr.productAlreadyInOrder.kind = ErrKind.conflictError ∧
    runOp s (Op.addProd oid pid) = s ∧
    s.order_product.Nodup ∧
    (∃ l, get_products_for_order s oid = Except.ok l ∧ l.count p = 1) := by
  have hnd : s.order_product.Nodup := by
    rw [hs]
    exact runOps_assoc_nodup ops
  have hmem : p ∈ order_products s oid := (mem_order_products hp).mpr hm
  have hadd : add_prod_to_order s oid pid = Except.error RouteErr.productAlreadyInOrder := by
    simp only [add_prod_to_order, ho, hp]
    rw [if_pos hmem]
  have hcount : (order_products s oid).count p = 1 := by
    unfold order_products
    exact count_filterMap_assoc hp s.order_product hnd hm
  have hne : (order_products s oid).isEmpty = false := by
    cases hL : order_products s oid with
    | nil =>
      rw [hL] at hmem
      cases hmem
    | cons a t => rfl
  have hget : get_products_for_order s oid = Except.ok (order_products s oid) := by
    simp [get_products_for_order, ho, hne]
  exact ⟨hadd, rfl, by simp only [runOp, hadd], hnd, order_products s oid, hget, hcount⟩

/-- Witness for C2: on seedStore, where order 1 already holds product
1, a second association attempt fails with the already exists
response. -/
theorem claim2_witness :
    find_order (runOps emptyStore seedOps) 1 = some ⟨1, 5, 1⟩ ∧
    ((1 : Int), (1 : Int)) ∈ (runOps emptyStore seedOps).order_product ∧
    add_prod_to_order (runOps emptyStore seedOps) 1 1 =
      Except.error RouteErr.productAlreadyInOrder :=
  ⟨by decide, by decide,
   (claim2_duplicate_add_conflict seedOps (runOps emptyStore seedOps) rfl 1 1 ⟨1, 5, 1⟩
      ⟨1, "Widget", 9⟩ (by decide) (by decide) (by decide)).1⟩

end EComm
